import Mathlib

/-!
# Shallow embedding of the Perceptus robot-session coordinator

This file embeds, in Lean 4, the session-coordination logic of the
`perceptus-go-sdk` repository and proves/refutes the frozen claims about it.

Embedding conventions:
* Go buffered channels become `GoChan`: a capacity, an ordered buffer and a
  `closed` flag.  A Go `select { case ch <- v: default: }` becomes
  `GoChan.trySend` (in Go, a send on a closed channel panics even inside a
  `select` with a `default`, so `trySend` on a closed channel returns `none`);
  `close(ch)` becomes `GoChan.closeChan` (`none` when already closed, since Go
  panics on double close).  `Option` models panic/no-panic throughout: `none`
  is a runtime panic, `some s` a normal return with post-state `s`.
* `context.Context` rotation on the session becomes a generation counter
  `ctxGen` plus the list `cancelledGens` of generations whose cancel function
  has been called; `rs.CancelCurrentContext()` appends the current generation,
  `context.WithCancel(context.Background())` installs the next generation.
* `time.Now()` becomes an explicit `now : Nat` argument; `time.Duration`
  fields are stored in milliseconds.
* Go `float64` literals (`0.5`, `0.7`, `0.8`, `0.9`, the confidence values)
  become the corresponding rationals; every comparison appearing in the code
  (`0.5 < 0.7 < 0.8 < 0.9`) has the same truth value over `float64` and `ℚ`.
* External collaborators (Deepgram, OpenAI, Pinecone, Redis, the websocket)
  are out of scope per the spec; their *results* enter the embedded functions
  as explicit parameters (`Option` for fallible calls), and log emissions
  become explicit `LogEvent` values where a claim is about logging.

The repository contains two divergent revisions of the session type: the one
in `models/session.go` (with an `IntentionCh chan IntentionResult` and an
unguarded `Stop`) and the one in `handlers/websocket_handler.go` lines 23-141
(three string channels only, `Stop` guarded by `IsActive`).  Both are embedded,
in the namespaces `Models` and `Handlers`.
-/

/-- `models.SESSION_END`: the reserved sentinel string. -/
def SESSION_END : String := "<SESSION_END>"

/-- The end-of-utterance marker checked by `AudioHandler.handleTranscript`. -/
def END_OF_SPEECH : String := "<END_OF_SPEECH>"

/-- A Go buffered channel: capacity, FIFO buffer, closed flag. -/
structure GoChan (α : Type) where
  cap : Nat
  buf : List α
  closed : Bool
deriving Repr, DecidableEq

namespace GoChan

/-- `select { case ch <- v: default: }`: non-blocking send.  On a closed
channel the send case is ready and panics when taken (`none`).  Otherwise,
if the buffer has room the value is appended (`true` = sent); if the buffer
is full the `default` branch fires and the channel is unchanged
(`false` = skipped). -/
def trySend {α : Type} (c : GoChan α) (v : α) : Option (GoChan α × Bool) :=
  if c.closed then none
  else if c.buf.length < c.cap then some ({ c with buf := c.buf ++ [v] }, true)
  else some (c, false)

/-- `close(ch)`: panics (`none`) when the channel is already closed. -/
def closeChan {α : Type} (c : GoChan α) : Option (GoChan α) :=
  if c.closed then none else some { c with closed := true }

end GoChan

/-- `models.IntentionResult` (models/session.go lines 44-52). -/
structure IntentionResult where
  hasClearIntention : Bool
  intentionType : String
  description : String
  confidence : ℚ
  environmentContext : String
  transcriptAnalysis : String
  timestamp : Nat
deriving Repr, DecidableEq

/-- Go `strings.TrimSpace` on the embedded strings: drop leading and
trailing whitespace.  (Both sides trim by Unicode whitespace; on the ASCII
values appearing in this code base `Char.isWhitespace` matches
`unicode.IsSpace`.) -/
def goTrimSpace (s : String) : String :=
  String.mk
    (((s.toList.dropWhile Char.isWhitespace).reverse.dropWhile
        Char.isWhitespace).reverse)

/-- Go `strings.ToLower` on the embedded strings.  (Go lowers the full
Unicode range; the keyword matching in this code base is ASCII-only, where
`Char.toLower` agrees.) -/
def goToLower (s : String) : String :=
  String.mk (s.toList.map Char.toLower)

/-- Whether `sub` occurs as a contiguous run inside `l`. -/
def listContains (sub : List Char) : List Char → Bool
  | [] => sub.isEmpty
  | c :: rest => sub.isPrefixOf (c :: rest) || listContains sub rest

/-- Go `strings.Contains(s, substr)` on the embedded strings. -/
def goContains (s substr : String) : Bool :=
  listContains substr.toList s.toList

namespace Models

/-- `models.RoboSession` (models/session.go lines 16-42).  The two
`context` fields become `ctxGen`/`cancelledGens`; the websocket connection
becomes the flag `connClosed`; Redis client and logger carry no session
state and are omitted. -/
structure RoboSession where
  id : String
  ctxGen : Nat
  cancelledGens : List Nat
  connClosed : Bool
  transcriptionCh : GoChan String
  interruptionCh : GoChan String
  videoAnalysisCh : GoChan String
  intentionCh : GoChan IntentionResult
  isActive : Bool
  startTime : Nat
  lastActivity : Nat
  videoFrequencyMs : Nat
  audioFrequencyMs : Nat
  currentTranscript : String
  lastActionTime : Nat
deriving Repr, DecidableEq

/-- `models.NewRoboSession` (models/session.go lines 71-102): fresh context
(generation 0, nothing cancelled), channels of capacity 100/100/100/10,
`IsActive = true`, empty transcript, 10 s video and 100 ms audio cadence. -/
def NewRoboSession (id : String) (now : Nat) : RoboSession where
  id := id
  ctxGen := 0
  cancelledGens := []
  connClosed := false
  transcriptionCh := { cap := 100, buf := [], closed := false }
  interruptionCh := { cap := 100, buf := [], closed := false }
  videoAnalysisCh := { cap := 100, buf := [], closed := false }
  intentionCh := { cap := 10, buf := [], closed := false }
  isActive := true
  startTime := now
  lastActivity := now
  videoFrequencyMs := 10000
  audioFrequencyMs := 100
  currentTranscript := ""
  lastActionTime := now

/-- `models.RoboSession.UpdateContext` (models/session.go lines 104-108):
cancel the current-utterance scope, install a fresh one, update the
last-activity time. -/
def UpdateContext (rs : RoboSession) (now : Nat) : RoboSession :=
  { rs with
    cancelledGens := rs.ctxGen :: rs.cancelledGens
    ctxGen := rs.ctxGen + 1
    lastActivity := now }

/-- `models.RoboSession.SendToAllChannels` (models/session.go lines 131-145):
three independent non-blocking sends to the string channels.  The
`IntentionCh` takes `IntentionResult` values and is not written to. -/
def SendToAllChannels (rs : RoboSession) (message : String) :
    Option RoboSession :=
  match rs.transcriptionCh.trySend message with
  | none => none
  | some (t, _) =>
    match rs.interruptionCh.trySend message with
    | none => none
    | some (i, _) =>
      match rs.videoAnalysisCh.trySend message with
      | none => none
      | some (v, _) =>
        some { rs with transcriptionCh := t, interruptionCh := i,
                       videoAnalysisCh := v }

/-- `models.RoboSession.Stop` (models/session.go lines 110-129): set
`IsActive` false, broadcast the sentinel, cancel the current context,
then unconditionally close all four channels and the connection. -/
def Stop (rs : RoboSession) : Option RoboSession :=
  match SendToAllChannels { rs with isActive := false } SESSION_END with
  | none => none
  | some rs1 =>
    let rs2 := { rs1 with cancelledGens := rs1.ctxGen :: rs1.cancelledGens }
    match rs2.transcriptionCh.closeChan with
    | none => none
    | some t =>
      match rs2.interruptionCh.closeChan with
      | none => none
      | some i =>
        match rs2.videoAnalysisCh.closeChan with
        | none => none
        | some v =>
          match rs2.intentionCh.closeChan with
          | none => none
          | some ic =>
            some { rs2 with
              transcriptionCh := t, interruptionCh := i, videoAnalysisCh := v,
              intentionCh := ic, connClosed := true }

end Models

namespace Handlers

/-- `handlers.RoboSession` (handlers/websocket_handler.go lines 23-52, first
revision): like `Models.RoboSession` but with only the three string channels
and no `IntentionCh`.  The handler pointers carry no state of their own. -/
structure RoboSession where
  id : String
  ctxGen : Nat
  cancelledGens : List Nat
  connClosed : Bool
  transcriptionCh : GoChan String
  interruptionCh : GoChan String
  videoAnalysisCh : GoChan String
  isActive : Bool
  startTime : Nat
  lastActivity : Nat
  videoFrequencyMs : Nat
  audioFrequencyMs : Nat
  currentTranscript : String
  lastActionTime : Nat
deriving Repr, DecidableEq

/-- `handlers.NewRoboSession` (websocket_handler.go lines 63-93): fresh
context, channels of capacity 100, `IsActive = true`, 30 s video cadence. -/
def NewRoboSession (id : String) (now : Nat) : RoboSession where
  id := id
  ctxGen := 0
  cancelledGens := []
  connClosed := false
  transcriptionCh := { cap := 100, buf := [], closed := false }
  interruptionCh := { cap := 100, buf := [], closed := false }
  videoAnalysisCh := { cap := 100, buf := [], closed := false }
  isActive := true
  startTime := now
  lastActivity := now
  videoFrequencyMs := 30000
  audioFrequencyMs := 100
  currentTranscript := ""
  lastActionTime := now

/-- `handlers.RoboSession.UpdateContext` (websocket_handler.go lines 95-99):
identical to the models variant. -/
def UpdateContext (rs : RoboSession) (now : Nat) : RoboSession :=
  { rs with
    cancelledGens := rs.ctxGen :: rs.cancelledGens
    ctxGen := rs.ctxGen + 1
    lastActivity := now }

/-- `handlers.RoboSession.SendToAllChannels` (websocket_handler.go lines
123-137): three independent non-blocking sends. -/
def SendToAllChannels (rs : RoboSession) (message : String) :
    Option RoboSession :=
  match rs.transcriptionCh.trySend message with
  | none => none
  | some (t, _) =>
    match rs.interruptionCh.trySend message with
    | none => none
    | some (i, _) =>
      match rs.videoAnalysisCh.trySend message with
      | none => none
      | some (v, _) =>
        some { rs with transcriptionCh := t, interruptionCh := i,
                       videoAnalysisCh := v }

/-- `handlers.RoboSession.Stop` (websocket_handler.go lines 101-121): the
guarded revision — the whole body runs only when `IsActive` is still true,
so a second call is a pure no-op. -/
def Stop (rs : RoboSession) : Option RoboSession :=
  if rs.isActive then
    match SendToAllChannels { rs with isActive := false } SESSION_END with
    | none => none
    | some rs1 =>
      let rs2 := { rs1 with cancelledGens := rs1.ctxGen :: rs1.cancelledGens }
      match rs2.transcriptionCh.closeChan with
      | none => none
      | some t =>
        match rs2.interruptionCh.closeChan with
        | none => none
        | some i =>
          match rs2.videoAnalysisCh.closeChan with
          | none => none
          | some v =>
            some { rs2 with
              transcriptionCh := t, interruptionCh := i, videoAnalysisCh := v,
              connClosed := true }
  else
    some rs

/-- `IntentionHandler.ProcessTranscript` (intention_handler.go lines 252-259),
restricted to its dispatch decision: an empty transcript is ignored, a
non-empty one is handed to `analyzeIntention` (spawned as a goroutine);
the returned value is the utterance dispatched to the intention analysis,
`none` when nothing is dispatched. -/
def ProcessTranscript (transcript : String) : Option String :=
  if transcript = "" then none else some transcript

/-- One iteration of `AudioHandler.handleTranscript` (audio_handler.go lines
46-89) on the value `transcript` consumed from `TranscriptionCh`.  Returns
the new session state, the utterance dispatched to the intention dispatcher
(if any), and whether the loop returned (on the sentinel). -/
def handleTranscriptStep (rs : RoboSession) (transcript : String) (now : Nat) :
    RoboSession × Option String × Bool :=
  if transcript = SESSION_END then
    (rs, none, true)
  else if transcript = END_OF_SPEECH then
    if rs.currentTranscript ≠ "" then
      let dispatched := ProcessTranscript rs.currentTranscript
      let rs := UpdateContext rs now
      let rs := { rs with currentTranscript := "" }
      (rs, dispatched, false)
    else
      (rs, none, false)
  else if goTrimSpace transcript ≠ "" then
    ({ rs with currentTranscript := rs.currentTranscript ++ transcript ++ " " },
      none, false)
  else
    (rs, none, false)

/-- The `for h.session.IsActive` loop of `AudioHandler.handleTranscript`,
run over a finite list of values arriving on `TranscriptionCh`; collects the
utterances dispatched to the intention dispatcher in order. -/
def runTranscripts (rs : RoboSession) (ts : List String) (now : Nat) :
    RoboSession × List String :=
  match ts with
  | [] => (rs, [])
  | t :: rest =>
    if rs.isActive then
      match handleTranscriptStep rs t now with
      | (rs1, d, true) => (rs1, d.toList)
      | (rs1, d, false) =>
        let (rs2, ds) := runTranscripts rs1 rest now
        (rs2, d.toList ++ ds)
    else
      (rs, [])

end Handlers

namespace IntentionHandlerM

/-- The keyword list of `IntentionHandler.parseIntentionResponse`
(intention_handler.go lines 183-186). -/
def clearIntentionKeywords : List String :=
  ["clear intention", "definite intention", "specific request", "clear request",
   "wants to", "needs to", "asks for", "requests", "commands"]

/-- The four return values of `parseIntentionResponse`. -/
structure ParsedIntention where
  hasIntention : Bool
  intentionType : String
  description : String
  confidence : ℚ
deriving Repr, DecidableEq

/-- `IntentionHandler.parseIntentionResponse` (intention_handler.go lines
176-218): lower-case the response, detect a clear intention by keyword,
classify the intention type, and derive the confidence (0.5 default, 0.8
with a clear intention, 0.9 when additionally "very clear" or "definite"
occurs).  The lower-cased response is returned as the description. -/
def parseIntentionResponse (response : String) : ParsedIntention :=
  let lower := goToLower response
  let hasIntention := clearIntentionKeywords.any (fun k => goContains lower k)
  let intentionType :=
    if goContains lower "move" || goContains lower "go" then "movement"
    else if goContains lower "get" || goContains lower "fetch" then "retrieval"
    else if goContains lower "turn on" || goContains lower "turn off" then "control"
    else if goContains lower "help" || goContains lower "assist" then "assistance"
    else "general"
  let confidence : ℚ :=
    if hasIntention then
      if goContains lower "very clear" || goContains lower "definite" then mkRat 9 10
      else mkRat 8 10
    else mkRat 5 10
  { hasIntention := hasIntention, intentionType := intentionType,
    description := lower, confidence := confidence }

/-- The orchestrator-notification guard of `analyzeIntention`
(intention_handler.go line 129): `hasIntention && confidence > 0.7`. -/
def notifyGate (hasIntention : Bool) (confidence : ℚ) : Bool :=
  hasIntention && decide (confidence > mkRat 7 10)

/-- The non-blocking delivery of an `IntentionResult` on `IntentionCh`
(intention_handler.go lines 120-126): send when there is room, otherwise
log a warning and drop; the returned `Bool` is true when the result was
actually enqueued.  `none` is the Go panic on a closed channel. -/
def sendIntentionResult (s : Models.RoboSession) (result : IntentionResult) :
    Option (Models.RoboSession × Bool) :=
  (s.intentionCh.trySend result).map
    (fun p => ({ s with intentionCh := p.1 }, p.2))

/-- The observable outcome of one `analyzeIntention` run. -/
structure AnalyzeOutcome where
  session : Models.RoboSession
  delivered : Bool
  notified : Bool
  sentResult : Option IntentionResult
deriving Repr, DecidableEq

/-- `IntentionHandler.analyzeIntention` (intention_handler.go lines 73-135).
The function opens its own scope `ctx := context.WithTimeout(
context.Background(), 30*time.Second)` — derived from the background
context, not from the session's current-utterance scope, so nothing of the
session's `ctxGen`/`cancelledGens` is read anywhere below.

Collaborator calls enter as parameters:
* `localCtxDone` — whether this local 30 s scope is done at the
  `select ... ctx.Done()` check (lines 92-97);
* `envCtxResult` — the Pinecone environment-context lookup, `none` on error
  (the error is logged and `environmentContext` stays empty, lines 82-89);
  when no Pinecone index exists the lookup is skipped, same as `some []`;
* `openaiResp` — `AnalyzeTranscriptForIntention`, `none` on error (logged,
  then `return`, lines 100-104).

On success the parsed result is delivered non-blockingly on `IntentionCh`
and the orchestrator is notified iff `notifyGate` holds (line 129); the
final websocket send does not change session state and is not recorded. -/
def analyzeIntention (s : Models.RoboSession) (localCtxDone : Bool)
    (envCtxResult : Option (List String)) (openaiResp : Option String)
    (now : Nat) : Option AnalyzeOutcome :=
  let environmentContext : List String :=
    match envCtxResult with
    | some ctxList => ctxList
    | none => []
  if localCtxDone then
    some { session := s, delivered := false, notified := false, sentResult := none }
  else
    match openaiResp with
    | none =>
      some { session := s, delivered := false, notified := false, sentResult := none }
    | some intention =>
      let p := parseIntentionResponse intention
      let result : IntentionResult :=
        { hasClearIntention := p.hasIntention
          intentionType := p.intentionType
          description := p.description
          confidence := p.confidence
          environmentContext := String.intercalate "\n" environmentContext
          transcriptAnalysis := intention
          timestamp := now }
      (sendIntentionResult s result).map (fun q =>
        { session := q.1, delivered := q.2,
          notified := notifyGate p.hasIntention p.confidence,
          sentResult := some result })

end IntentionHandlerM

/-- Log severity, for claims about what startup merely logs. -/
inductive LogLevel
  | debug
  | info
  | warn
  | error
deriving Repr, DecidableEq

/-- One emitted log record. -/
structure LogEvent where
  level : LogLevel
  msg : String
deriving Repr, DecidableEq

namespace Utils

/-- The configuration state of the client built by `InitDeepgramClient`. -/
structure DeepgramClientConfig where
  apiKey : String
  language : String
  model : String
  confidenceThresholdRaw : String
deriving Repr, DecidableEq

/-- `utils.InitDeepgramClient` (deepgram.go lines 35-90).  The
`DEEPGRAM_API_KEY` environment read enters as the parameter `apiKey`.
A missing key only emits an error log (lines 40-44) — the function then
proceeds, builds the transcription options (switching a non-English
language to "multi" on the nova-3 model, lines 59-62), and always returns
a constructed client; there is no early return and no abort anywhere.
The external `listen.NewWebSocketUsingCallback` call can also fail, and
that error too is only logged (lines 81-84).  Returns the client
configuration and the warning/error logs emitted. -/
def InitDeepgramClient (lang confidenceThreshold apiKey : String) :
    DeepgramClientConfig × List LogEvent :=
  let logs0 : List LogEvent :=
    if apiKey = "" then
      [{ level := LogLevel.error,
         msg := "DEEPGRAM_API_KEY environment variable not set" }]
    else []
  let model := "nova-3"
  let language :=
    if lang ≠ "en" ∧ model = "nova-3" then "multi" else lang
  let logs1 : List LogEvent :=
    if lang ≠ "en" ∧ model = "nova-3" then
      logs0 ++ [{ level := LogLevel.warn,
                  msg := "Using multilingual model for non-English language on Nova 3" }]
    else logs0
  ({ apiKey := apiKey, language := language, model := model,
     confidenceThresholdRaw := confidenceThreshold }, logs1)

end Utils

namespace MainStartup

/-- The Redis connectivity gate of `main` (main.go lines 44-51): the result
of `redisClient.Ping(...).Result()` enters as the parameter; on error the
program terminates via `log.Fatalf` (modelled as `Except.error`), otherwise
startup proceeds (`Except.ok`). -/
def redisStartup (pingResult : Except String Unit) : Except String Unit :=
  match pingResult with
  | Except.error e => Except.error ("Failed to connect to Redis: " ++ e)
  | Except.ok _ => Except.ok ()

end MainStartup

/-- A sample structured result, used to exercise the mailbox operations on
concrete states. -/
def sampleIntentionResult : IntentionResult where
  hasClearIntention := true
  intentionType := "movement"
  description := "go to the kitchen"
  confidence := mkRat 8 10
  environmentContext := ""
  transcriptAnalysis := "wants to go to the kitchen"
  timestamp := 1

/-- A session whose intention-result mailbox is at capacity (10 unddrained
results) with no consumer, for exercising the backpressure path. -/
def fullIntentionSession : Models.RoboSession :=
  { Models.NewRoboSession "w" 0 with
    intentionCh := { cap := 10, buf := List.replicate 10 sampleIntentionResult,
                     closed := false } }

/-!
## Theorems

One theorem (plus witness/counterexample where required) per claim, in claim
order, with shared helper lemmas first.
-/

/-- Helper: the guarded `handlers` `Stop` is a pure no-op on a session whose
`IsActive` flag is already false. -/
theorem handlers_stop_noop_of_inactive (rs : Handlers.RoboSession)
    (h : rs.isActive = false) : Handlers.Stop rs = some rs := by
  simp [Handlers.Stop, h]

/-- Helper: a successful `handlers` `SendToAllChannels` leaves `isActive`
unchanged (it only replaces the three string channels). -/
theorem handlers_sendToAll_isActive (rs rs1 : Handlers.RoboSession) (m : String)
    (h : Handlers.SendToAllChannels rs m = some rs1) :
    rs1.isActive = rs.isActive := by
  unfold Handlers.SendToAllChannels at h
  split at h
  · simp at h
  · split at h
    · simp at h
    · split at h
      · simp at h
      · injection h with h
        subst h
        rfl

/-- Claim C1 (amended): the guarded `Stop` of handlers/websocket_handler.go
lines 101-121 is idempotent — on a session whose `IsActive` flag is already
false it is a no-op returning without panic, and after any successful
`Stop` the result has `IsActive = false` and a second `Stop` returns it
unchanged, so every channel is closed at most once across the pair of
calls.  (The unguarded `models.RoboSession.Stop` violates this; see the
counterexample `models_stop_double_call_panics`.) -/
theorem stop_idempotent_guarded_variant :
    (∀ rs : Handlers.RoboSession, rs.isActive = false →
      Handlers.Stop rs = some rs)
    ∧ (∀ rs rs1 : Handlers.RoboSession, Handlers.Stop rs = some rs1 →
        rs1.isActive = false ∧ Handlers.Stop rs1 = some rs1) := by
  refine ⟨fun rs h => handlers_stop_noop_of_inactive rs h, ?_⟩
  intro rs rs1 h
  unfold Handlers.Stop at h
  split at h
  case isFalse ha =>
    have hb : rs.isActive = false := by simpa using ha
    injection h with h
    subst h
    exact ⟨hb, handlers_stop_noop_of_inactive rs hb⟩
  case isTrue ha =>
    split at h
    case h_1 => exact absurd h (by simp)
    case h_2 rsA hA =>
      have hAact : rsA.isActive = false := handlers_sendToAll_isActive _ _ _ hA
      dsimp only at h
      cases hT : rsA.transcriptionCh.closeChan with
      | none => rw [hT] at h; simp at h
      | some t =>
        rw [hT] at h
        cases hI : rsA.interruptionCh.closeChan with
        | none => rw [hI] at h; simp at h
        | some i =>
          rw [hI] at h
          cases hV : rsA.videoAnalysisCh.closeChan with
          | none => rw [hV] at h; simp at h
          | some v =>
            rw [hV] at h
            injection h with h
            subst h
            exact ⟨hAact, handlers_stop_noop_of_inactive _ hAact⟩

/-- Witness for C1: the guarded `Stop` applied to concrete sessions — a
no-op on an already-inactive session, and idempotent across a
stop-then-stop pair on a fresh session. -/
theorem stop_idempotent_guarded_variant_witness :
    Handlers.Stop { Handlers.NewRoboSession "w" 0 with isActive := false }
      = some { Handlers.NewRoboSession "w" 0 with isActive := false }
    ∧ (Handlers.Stop (Handlers.NewRoboSession "w" 0)).bind Handlers.Stop
      = Handlers.Stop (Handlers.NewRoboSession "w" 0) := by
  constructor
  · exact stop_idempotent_guarded_variant.1 _ rfl
  · cases hE : Handlers.Stop (Handlers.NewRoboSession "w" 0) with
    | none => exact absurd hE (by decide)
    | some s1 => exact (stop_idempotent_guarded_variant.2 _ s1 hE).2

/-- Counterexample for C1 as stated: on the `models/session.go` variant a
first `Stop()` returns normally, but a second `Stop()` on the
already-stopped session panics (`none`) — the sentinel send and the
`close` calls hit already-closed channels, so the channels are not closed
at most once and the second call is not a no-op. -/
theorem models_stop_double_call_panics :
    (Models.Stop (Models.NewRoboSession "s" 0)).isSome = true
    ∧ (Models.Stop (Models.NewRoboSession "s" 0)).bind Models.Stop = none := by
  decide

/-- Claim C2 (code bug): `analyzeIntention` runs under its own
`context.WithTimeout(context.Background(), 30s)` scope, so cancelling the
current-utterance scope does not reach it.  Concretely: the session's
utterance scope of generation 0 has been cancelled (an interruption /
supersession via `UpdateContext`) while the analysis of utterance A is in
flight, yet when the OpenAI call completes the `IntentionResult` is still
delivered on the intention-result mailbox (`delivered = true`, the mailbox
gains the result) instead of being discarded. -/
theorem intention_delivery_ignores_cancelled_scope :
    0 ∈ (Models.UpdateContext (Models.NewRoboSession "s" 0) 5).cancelledGens
    ∧ (IntentionHandlerM.analyzeIntention
        (Models.UpdateContext (Models.NewRoboSession "s" 0) 5) false (some [])
        (some "the user wants to move") 6).map
        (fun o => (o.delivered, o.session.intentionCh.buf.length))
      = some (true, 1) := by
  decide

/-- Counterexample for C3 as stated: after `Stop()` on a fresh
`models` session the three string mailboxes each hold the sentinel, but the
intention-result mailbox holds nothing — the sentinel is not broadcast to
every mailbox of the session. -/
theorem stop_sends_no_sentinel_to_intention_mailbox :
    (Models.Stop (Models.NewRoboSession "s" 0)).map
      (fun s => (s.intentionCh.buf, s.transcriptionCh.buf,
                 s.interruptionCh.buf, s.videoAnalysisCh.buf))
      = some ([], [SESSION_END], [SESSION_END], [SESSION_END]) := by
  decide

/-- Claim C3 (amended): `SendToAllChannels` broadcasts the message to the
three string mailboxes (transcription, interruption, visual-analysis), each
send non-blocking — appended when there is room, skipped (never retried)
when the mailbox is full — while the intention-result mailbox receives no
sentinel and is left untouched; with open string channels the call always
returns normally, so the caller never blocks or panics. -/
theorem sentinel_broadcast_string_mailboxes_only
    (rs : Models.RoboSession) (m : String)
    (ht : rs.transcriptionCh.closed = false)
    (hi : rs.interruptionCh.closed = false)
    (hv : rs.videoAnalysisCh.closed = false) :
    Models.SendToAllChannels rs m = some
      { rs with
        transcriptionCh :=
          if rs.transcriptionCh.buf.length < rs.transcriptionCh.cap
          then { rs.transcriptionCh with buf := rs.transcriptionCh.buf ++ [m] }
          else rs.transcriptionCh,
        interruptionCh :=
          if rs.interruptionCh.buf.length < rs.interruptionCh.cap
          then { rs.interruptionCh with buf := rs.interruptionCh.buf ++ [m] }
          else rs.interruptionCh,
        videoAnalysisCh :=
          if rs.videoAnalysisCh.buf.length < rs.videoAnalysisCh.cap
          then { rs.videoAnalysisCh with buf := rs.videoAnalysisCh.buf ++ [m] }
          else rs.videoAnalysisCh } := by
  by_cases h1 : rs.transcriptionCh.buf.length < rs.transcriptionCh.cap <;>
  by_cases h2 : rs.interruptionCh.buf.length < rs.interruptionCh.cap <;>
  by_cases h3 : rs.videoAnalysisCh.buf.length < rs.videoAnalysisCh.cap <;>
  simp [Models.SendToAllChannels, GoChan.trySend, ht, hi, hv, h1, h2, h3]

/-- Witness for C3 (amended): the broadcast on a fresh session delivers the
sentinel to the three string mailboxes and leaves the intention mailbox
empty. -/
theorem sentinel_broadcast_string_mailboxes_only_witness :
    Models.SendToAllChannels (Models.NewRoboSession "w" 0) SESSION_END = some
      { Models.NewRoboSession "w" 0 with
        transcriptionCh :=
          if (Models.NewRoboSession "w" 0).transcriptionCh.buf.length
              < (Models.NewRoboSession "w" 0).transcriptionCh.cap
          then { (Models.NewRoboSession "w" 0).transcriptionCh with
                 buf := (Models.NewRoboSession "w" 0).transcriptionCh.buf
                   ++ [SESSION_END] }
          else (Models.NewRoboSession "w" 0).transcriptionCh,
        interruptionCh :=
          if (Models.NewRoboSession "w" 0).interruptionCh.buf.length
              < (Models.NewRoboSession "w" 0).interruptionCh.cap
          then { (Models.NewRoboSession "w" 0).interruptionCh with
                 buf := (Models.NewRoboSession "w" 0).interruptionCh.buf
                   ++ [SESSION_END] }
          else (Models.NewRoboSession "w" 0).interruptionCh,
        videoAnalysisCh :=
          if (Models.NewRoboSession "w" 0).videoAnalysisCh.buf.length
              < (Models.NewRoboSession "w" 0).videoAnalysisCh.cap
          then { (Models.NewRoboSession "w" 0).videoAnalysisCh with
                 buf := (Models.NewRoboSession "w" 0).videoAnalysisCh.buf
                   ++ [SESSION_END] }
          else (Models.NewRoboSession "w" 0).videoAnalysisCh } :=
  sentinel_broadcast_string_mailboxes_only (Models.NewRoboSession "w" 0)
    SESSION_END rfl rfl rfl

/-- Claim C4: consuming the fragments "go to the", "kitchen" and the
end-of-utterance marker from the transcription mailbox, starting with an
empty buffer, dispatches exactly the single utterance "go to the kitchen "
to the intention dispatcher, leaves the buffer empty, keeps the session
active, and rotates the utterance scope exactly once (generation 0
cancelled, generation 1 current). -/
theorem utterance_assembly_dispatch :
    (Handlers.runTranscripts (Handlers.NewRoboSession "s" 0)
        ["go to the", "kitchen", END_OF_SPEECH] 5).2 = ["go to the kitchen "]
    ∧ (Handlers.runTranscripts (Handlers.NewRoboSession "s" 0)
        ["go to the", "kitchen", END_OF_SPEECH] 5).1.currentTranscript = ""
    ∧ (Handlers.runTranscripts (Handlers.NewRoboSession "s" 0)
        ["go to the", "kitchen", END_OF_SPEECH] 5).1.isActive = true
    ∧ (Handlers.runTranscripts (Handlers.NewRoboSession "s" 0)
        ["go to the", "kitchen", END_OF_SPEECH] 5).1.ctxGen = 1
    ∧ (Handlers.runTranscripts (Handlers.NewRoboSession "s" 0)
        ["go to the", "kitchen", END_OF_SPEECH] 5).1.cancelledGens = [0] := by
  decide

/-- Claim C5: the intention-result mailbox is created with capacity 10, and
delivering a result to a full (undrained, open) mailbox drops the result —
the call returns normally (never blocks the producer), reports the value as
not sent (the logged warning path), and leaves the session, in particular
the mailbox contents, unchanged. -/
theorem intention_mailbox_backpressure :
    (Models.NewRoboSession "s" 0).intentionCh.cap = 10
    ∧ ∀ (rs : Models.RoboSession) (r : IntentionResult),
        rs.intentionCh.closed = false →
        rs.intentionCh.buf.length = rs.intentionCh.cap →
        IntentionHandlerM.sendIntentionResult rs r = some (rs, false) := by
  refine ⟨rfl, ?_⟩
  intro rs r hc hfull
  simp [IntentionHandlerM.sendIntentionResult, GoChan.trySend, hc, hfull]

/-- Witness for C5: on a session whose intention mailbox holds 10 undrained
results, an 11th delivery is dropped and the session is unchanged. -/
theorem intention_mailbox_backpressure_witness :
    fullIntentionSession.intentionCh.closed = false
    ∧ fullIntentionSession.intentionCh.buf.length
      = fullIntentionSession.intentionCh.cap
    ∧ IntentionHandlerM.sendIntentionResult fullIntentionSession
        sampleIntentionResult = some (fullIntentionSession, false) :=
  ⟨rfl, rfl,
    intention_mailbox_backpressure.2 fullIntentionSession
      sampleIntentionResult rfl rfl⟩

/-- Claim C6: the orchestrator notification is issued iff
`hasClearIntention` is true and the confidence strictly exceeds 0.7; a
confidence of 0.65 never triggers it, a clear intention with confidence
0.75 always does; and `analyzeIntention` applies exactly this gate to the
fields of the `IntentionResult` it produces. -/
theorem orchestrator_threshold_gating :
    (∀ (h : Bool) (c : ℚ),
        IntentionHandlerM.notifyGate h c = true ↔ (h = true ∧ c > mkRat 7 10))
    ∧ (∀ h : Bool, IntentionHandlerM.notifyGate h (mkRat 13 20) = false)
    ∧ IntentionHandlerM.notifyGate true (mkRat 3 4) = true
    ∧ ∀ (rs : Models.RoboSession) (envCtx : Option (List String))
        (intent : String) (now : Nat),
        rs.intentionCh.closed = false →
        (IntentionHandlerM.analyzeIntention rs false envCtx (some intent)
            now).map
            (fun o => (o.notified,
              o.sentResult.map (fun r => (r.hasClearIntention, r.confidence))))
          = some (IntentionHandlerM.notifyGate
                (IntentionHandlerM.parseIntentionResponse intent).hasIntention
                (IntentionHandlerM.parseIntentionResponse intent).confidence,
              some ((IntentionHandlerM.parseIntentionResponse
                  intent).hasIntention,
                (IntentionHandlerM.parseIntentionResponse
                  intent).confidence)) := by
  refine ⟨?_, by decide, by decide, ?_⟩
  · intro h c
    simp [IntentionHandlerM.notifyGate]
  · intro rs envCtx intent now hc
    by_cases hr : rs.intentionCh.buf.length < rs.intentionCh.cap <;>
      simp [IntentionHandlerM.analyzeIntention,
        IntentionHandlerM.sendIntentionResult, GoChan.trySend, hc, hr]

/-- Witness for C6: concrete gate evaluations and a concrete
`analyzeIntention` run whose notification decision equals the gate on the
produced result. -/
theorem orchestrator_threshold_gating_witness :
    IntentionHandlerM.notifyGate true (mkRat 13 20) = false
    ∧ (IntentionHandlerM.analyzeIntention (Models.NewRoboSession "w" 0) false
        (some []) (some "the user wants to move") 1).map
        (fun o => (o.notified,
          o.sentResult.map (fun r => (r.hasClearIntention, r.confidence))))
      = some (IntentionHandlerM.notifyGate
            (IntentionHandlerM.parseIntentionResponse
              "the user wants to move").hasIntention
            (IntentionHandlerM.parseIntentionResponse
              "the user wants to move").confidence,
          some ((IntentionHandlerM.parseIntentionResponse
              "the user wants to move").hasIntention,
            (IntentionHandlerM.parseIntentionResponse
              "the user wants to move").confidence)) :=
  ⟨orchestrator_threshold_gating.2.1 true,
   orchestrator_threshold_gating.2.2.2 (Models.NewRoboSession "w" 0)
     (some []) "the user wants to move" 1 rfl⟩

/-- Claim C7: a whitespace-only (or empty) fragment consumed from the
transcription mailbox leaves the session — in particular the transcript
buffer — unchanged, dispatches nothing and produces no notification, and
does not terminate the loop. -/
theorem blank_fragment_no_mutation (rs : Handlers.RoboSession) (t : String)
    (now : Nat) (h : goTrimSpace t = "") :
    Handlers.handleTranscriptStep rs t now = (rs, none, false) := by
  have h1 : t ≠ SESSION_END := by
    rintro rfl; exact absurd h (by decide)
  have h2 : t ≠ END_OF_SPEECH := by
    rintro rfl; exact absurd h (by decide)
  simp [Handlers.handleTranscriptStep, h1, h2, h]

/-- Witness for C7: the three-space fragment is blank and is a no-op on a
fresh session. -/
theorem blank_fragment_no_mutation_witness :
    goTrimSpace "   " = ""
    ∧ Handlers.handleTranscriptStep (Handlers.NewRoboSession "w" 0) "   " 3
      = (Handlers.NewRoboSession "w" 0, none, false) :=
  ⟨by decide,
   blank_fragment_no_mutation (Handlers.NewRoboSession "w" 0) "   " 3
     (by decide)⟩

/-- Claim C8: `UpdateContext` cancels the previous current-utterance scope
first, then installs a fresh (never-cancelled) scope — so exactly one
uncancelled current scope exists afterwards — and updates the last-activity
time, while leaving the lifecycle flag and the transcript buffer unchanged.
The hypothesis is the evident invariant that only past generations have
been cancelled. -/
theorem update_context_scope_rotation (rs : Models.RoboSession) (now : Nat)
    (hinv : ∀ g ∈ rs.cancelledGens, g ≤ rs.ctxGen) :
    (Models.UpdateContext rs now).cancelledGens
      = rs.ctxGen :: rs.cancelledGens
    ∧ (Models.UpdateContext rs now).ctxGen = rs.ctxGen + 1
    ∧ (Models.UpdateContext rs now).ctxGen
        ∉ (Models.UpdateContext rs now).cancelledGens
    ∧ (Models.UpdateContext rs now).lastActivity = now
    ∧ (Models.UpdateContext rs now).isActive = rs.isActive
    ∧ (Models.UpdateContext rs now).currentTranscript
        = rs.currentTranscript := by
  refine ⟨rfl, rfl, ?_, rfl, rfl, rfl⟩
  intro hmem
  have hmem2 : rs.ctxGen + 1 ∈ rs.ctxGen :: rs.cancelledGens := hmem
  rcases List.mem_cons.mp hmem2 with h | h
  · omega
  · exact absurd (hinv _ h) (by omega)

/-- Witness for C8: the rotation on a fresh session at time 7. -/
theorem update_context_scope_rotation_witness :
    (Models.UpdateContext (Models.NewRoboSession "w" 0) 7).cancelledGens
      = (Models.NewRoboSession "w" 0).ctxGen
        :: (Models.NewRoboSession "w" 0).cancelledGens
    ∧ (Models.UpdateContext (Models.NewRoboSession "w" 0) 7).ctxGen
      = (Models.NewRoboSession "w" 0).ctxGen + 1
    ∧ (Models.UpdateContext (Models.NewRoboSession "w" 0) 7).ctxGen
        ∉ (Models.UpdateContext (Models.NewRoboSession "w" 0) 7).cancelledGens
    ∧ (Models.UpdateContext (Models.NewRoboSession "w" 0) 7).lastActivity = 7
    ∧ (Models.UpdateContext (Models.NewRoboSession "w" 0) 7).isActive
      = (Models.NewRoboSession "w" 0).isActive
    ∧ (Models.UpdateContext (Models.NewRoboSession "w" 0) 7).currentTranscript
      = (Models.NewRoboSession "w" 0).currentTranscript :=
  update_context_scope_rotation (Models.NewRoboSession "w" 0) 7
    (fun g hg => absurd hg (List.not_mem_nil g))

/-- Counterexample for C9 as stated: with the speech-to-text API key
missing (empty `DEEPGRAM_API_KEY`), `InitDeepgramClient` still returns a
fully constructed client — startup proceeds, emitting only an error log,
instead of terminating with an error. -/
theorem missing_deepgram_key_not_fatal :
    Utils.InitDeepgramClient "en" "0.6" ""
      = ({ apiKey := "", language := "en", model := "nova-3",
           confidenceThresholdRaw := "0.6" },
         [{ level := LogLevel.error,
            msg := "DEEPGRAM_API_KEY environment variable not set" }]) := by
  decide

/-- Claim C9 (amended): startup configuration failures split — a failing
Redis connection is fatal (`log.Fatalf`, startup terminates with an error),
while a missing `DEEPGRAM_API_KEY` is only logged as an error and client
construction proceeds to completion (a client with the nova-3 model is
always returned, for every language, threshold and key). -/
theorem startup_failure_split :
    (∀ e, MainStartup.redisStartup (Except.error e)
        = Except.error ("Failed to connect to Redis: " ++ e))
    ∧ (∀ lang confidenceThreshold,
        ((Utils.InitDeepgramClient lang confidenceThreshold "").2.any
          (fun ev => decide (ev.level = LogLevel.error))) = true)
    ∧ (∀ lang confidenceThreshold apiKey,
        (Utils.InitDeepgramClient lang confidenceThreshold apiKey).1.model
          = "nova-3") := by
  refine ⟨fun e => rfl, ?_, fun lang th key => rfl⟩
  intro lang th
  by_cases hl : lang = "en" <;>
    simp [Utils.InitDeepgramClient, hl]

/-- Claim C10: every confidence produced by `parseIntentionResponse` lies
in {0.5, 0.8, 0.9}, the confidence exceeds 0.7 exactly when the returned
`hasIntention` flag is true, and consequently the orchestrator gate
`hasIntention && confidence > 0.7` collapses to `hasIntention` on every
parser output. -/
theorem parse_confidence_characterization :
    ∀ resp : String,
      ((IntentionHandlerM.parseIntentionResponse resp).confidence = mkRat 5 10
        ∨ (IntentionHandlerM.parseIntentionResponse resp).confidence
            = mkRat 8 10
        ∨ (IntentionHandlerM.parseIntentionResponse resp).confidence
            = mkRat 9 10)
      ∧ ((IntentionHandlerM.parseIntentionResponse resp).confidence
            > mkRat 7 10
          ↔ (IntentionHandlerM.parseIntentionResponse resp).hasIntention
            = true)
      ∧ IntentionHandlerM.notifyGate
          (IntentionHandlerM.parseIntentionResponse resp).hasIntention
          (IntentionHandlerM.parseIntentionResponse resp).confidence
        = (IntentionHandlerM.parseIntentionResponse resp).hasIntention := by
  intro resp
  have aux : ∀ x y : Bool,
      ((if x = true then if y = true then mkRat 9 10 else mkRat 8 10
          else mkRat 5 10) = mkRat 5 10
        ∨ (if x = true then if y = true then mkRat 9 10 else mkRat 8 10
            else mkRat 5 10) = mkRat 8 10
        ∨ (if x = true then if y = true then mkRat 9 10 else mkRat 8 10
            else mkRat 5 10) = mkRat 9 10)
      ∧ ((if x = true then if y = true then mkRat 9 10 else mkRat 8 10
            else mkRat 5 10) > mkRat 7 10 ↔ x = true)
      ∧ (x && decide ((if x = true then if y = true then mkRat 9 10
            else mkRat 8 10 else mkRat 5 10) > mkRat 7 10)) = x := by
    decide
  simpa only [IntentionHandlerM.parseIntentionResponse,
    IntentionHandlerM.notifyGate]
    using aux
      (IntentionHandlerM.clearIntentionKeywords.any
        (fun k => goContains (goToLower resp) k))
      (goContains (goToLower resp) "very clear"
        || goContains (goToLower resp) "definite")

/-- Witness for C9 (amended): a concrete failing Redis ping is fatal while
a concretely missing Deepgram key only logs an error. -/
theorem startup_failure_split_witness :
    MainStartup.redisStartup (Except.error "connection refused")
      = Except.error ("Failed to connect to Redis: " ++ "connection refused")
    ∧ ((Utils.InitDeepgramClient "en" "0.6" "").2.any
        (fun ev => decide (ev.level = LogLevel.error))) = true :=
  ⟨startup_failure_split.1 "connection refused",
   startup_failure_split.2.1 "en" "0.6"⟩

/-- Witness for C10: the parser/gate collapse evaluated on a concrete
response string. -/
theorem parse_confidence_characterization_witness :
    IntentionHandlerM.notifyGate
        (IntentionHandlerM.parseIntentionResponse
          "the user wants to move").hasIntention
        (IntentionHandlerM.parseIntentionResponse
          "the user wants to move").confidence
      = (IntentionHandlerM.parseIntentionResponse
          "the user wants to move").hasIntention :=
  (parse_confidence_characterization "the user wants to move").2.2
